import Mathlib

/-!
Verification of the anchorage hazard-pointer library against its
natural-language specification.

The Rust sources are shallowly embedded: raw pointers become natural
numbers (`0` is the null pointer), atomics become explicit state passing,
and the observable atomic operations of the reader protocol are recorded
as explicit effect traces.  Each definition is translated from the named
Rust item in the repository's `src/` tree; definitions whose doc comment
says so instead follow a claim's wording, for comparison with the code.
-/

namespace Anchorage

/-- Machine address. `0` models the null pointer; real allocations and
references are non-null. -/
abbrev Ptr := Nat

/-! ## Allocator model

An allocator hands out fresh non-null addresses and records which
addresses it currently has live.  `next` starts at `1` in any real
allocator state, so allocation never returns the null address. -/

structure AllocatorState where
  next : Nat
  live : List Ptr
deriving DecidableEq, Repr

/-- One successful allocation (`Box::try_new_in` succeeding): returns the
fresh address and records it as live. -/
def AllocatorState.allocate (a : AllocatorState) : AllocatorState × Ptr :=
  (⟨a.next + 1, a.next :: a.live⟩, a.next)

/-! ## hazbox.rs -/

/-- State of a `HazBox<'dom, T, D>`: the atomic pointer and the identity
of its domain (domain handles are compared by identity in `anchor.rs`). -/
structure HazBoxState where
  ptr : Ptr
  domainId : Nat
deriving DecidableEq, Repr

/-- `HazBox::try_new_in` (hazbox.rs lines 64-72): allocates the value via
`Box::try_new_in(obj, domain.allocator())` and stores its address in the
atomic pointer. -/
def HazBox.try_new_in (dom : Nat) (a : AllocatorState) : AllocatorState × HazBoxState :=
  let r := a.allocate
  (r.fst, ⟨r.snd, dom⟩)

/-- `HazBox::swap` (hazbox.rs lines 87-92): a relaxed atomic exchange that
installs the address of the caller-provided `&mut T` (`with as *mut T`)
and returns the old pointer, which is wrapped into a `Retire`.  No
allocation takes place. -/
def HazBox.swap (b : HazBoxState) (withAddr : Ptr) : HazBoxState × Ptr :=
  (⟨withAddr, b.domainId⟩, b.ptr)

/-- Box state after a sequence of `HazBox::swap` calls with the given
addresses of caller-provided mutable references. -/
def HazBox.swapAll (b : HazBoxState) : List Ptr → HazBoxState
  | [] => b
  | w :: ws => HazBox.swapAll (HazBox.swap b w).fst ws

/-- The old pointers handed to `Retire::new_in` by a sequence of
`HazBox::swap` calls (retire.rs lines 28-36 wraps each of these with
`NonNull::new_unchecked`). -/
def HazBox.swapRetired (b : HazBoxState) : List Ptr → List Ptr
  | [] => []
  | w :: ws => (HazBox.swap b w).snd :: HazBox.swapRetired (HazBox.swap b w).fst ws

/-! ## Allocation identity (node_list.rs / domain/scoped.rs)

For the allocator-symmetry claims we tag each allocation and deallocation
with the allocator that performed it. -/

/-- Identity of the allocator performing an allocation or deallocation:
the global (`std::alloc::Global`) allocator or the scoped domain's
user-supplied allocator. -/
inductive AllocId where
  | globalAlloc
  | userAlloc
deriving DecidableEq, Repr

/-- Record of one allocation: the address and the allocator used. -/
structure AllocEvent where
  addr : Ptr
  allocator : AllocId
deriving DecidableEq, Repr

/-- Record of one deallocation: the address and the allocator used. -/
structure DeallocEvent where
  addr : Ptr
  allocator : AllocId
deriving DecidableEq, Repr

/-- State of a `ScopedDomain`: the addresses of its hazptr slot nodes and
its retired-list nodes (each retired node carries the retired value's
address). -/
structure ScopedState where
  hazptrNodes : List Ptr
  retiredNodes : List (Ptr × Ptr)
deriving DecidableEq, Repr

/-- `ScopedDomain::acquire_new` (scoped.rs lines 33-35) by way of
`List::push_front` (node_list.rs lines 46-58): the new slot node's `Box`
is allocated with `Global` (`Box::new_in(Node {..}, Global)`), not with
the domain's allocator, and prepended to the slot list. -/
def scoped_acquire_new (st : ScopedState) (nodeAddr : Ptr) : ScopedState × AllocEvent :=
  (⟨nodeAddr :: st.hazptrNodes, st.retiredNodes⟩, ⟨nodeAddr, .globalAlloc⟩)

/-- `ScopedDomain::retire` (scoped.rs lines 37-39) by way of
`List::push_front`: a new retired node, allocated with `Global`, is
prepended to the retired list carrying the retired value's address. -/
def scoped_retire (st : ScopedState) (nodeAddr value : Ptr) : ScopedState × AllocEvent :=
  (⟨st.hazptrNodes, (nodeAddr, value) :: st.retiredNodes⟩, ⟨nodeAddr, .globalAlloc⟩)

/-- The value addresses currently sitting in the scoped domain's retired
list. -/
def retiredValues (st : ScopedState) : List Ptr :=
  st.retiredNodes.map (fun nv => nv.snd)

/-- Deallocations performed on the retired list by `ScopedDomain::drop`
(scoped.rs lines 46-55): for each node, the retired value and then the
node itself are freed with `Box::from_raw_in(.., &self.allocator)`, the
user-supplied allocator. -/
def retired_drop_events : List (Ptr × Ptr) → List DeallocEvent
  | [] => []
  | nv :: rest => ⟨nv.snd, .userAlloc⟩ :: ⟨nv.fst, .userAlloc⟩ :: retired_drop_events rest

/-- All deallocations performed by `ScopedDomain::drop` (scoped.rs lines
42-64): every retired node and value, then every hazptr slot node, all
freed through `&self.allocator`, the user-supplied allocator stored by
value. -/
def scoped_drop_events (st : ScopedState) : List DeallocEvent :=
  retired_drop_events st.retiredNodes ++ st.hazptrNodes.map (fun n => ⟨n, .userAlloc⟩)

/-! ## retire.rs -/

/-- `Retire::drop` (retire.rs lines 56-68) running against a scoped
domain: when `needs_drop::<T>()` is true the pointer is handed to
`domain.retire` (which pushes it onto the retired list, allocating a node
at `nodeAddr`); otherwise the body of `drop` is empty, so the domain is
untouched and no deallocation is performed.  The returned list holds the
deallocations performed directly by the handle (there are none on either
path). -/
def retire_handle_drop (needsDrop : Bool) (p : Ptr) (st : ScopedState) (nodeAddr : Ptr) :
    ScopedState × List DeallocEvent :=
  if needsDrop then ((scoped_retire st nodeAddr p).fst, []) else (st, [])

/-! ## Scoped domain slot acquisition (domain/scoped.rs, hazptr.rs) -/

/-- `ScopedDomain::try_acquire_existing` (scoped.rs lines 29-31): scans
the slot pool (modelled by its list of `active` flags) for the first slot
whose `HazPtr::try_acquire` succeeds, i.e. the first inactive slot, and
marks it active.  Returns the slot's index and the updated pool. -/
def try_acquire_existing (slots : List Bool) : Option (Nat × List Bool) :=
  match slots.findIdx? (fun a => !a) with
  | some i => some (i, slots.set i true)
  | none => none

/-- `ScopedDomainRef::acquire` (scoped.rs lines 103-107): the result of
`try_acquire_existing`, `or_else` unconditionally pushing a brand-new
slot created active (`acquire_new`, index `0` after the push-front).
Returns the updated pool and the acquired slot's index. -/
def scoped_acquire (slots : List Bool) : List Bool × Option Nat :=
  match try_acquire_existing slots with
  | some r => (r.snd, some r.fst)
  | none => (true :: slots, some 0)

/-- `Anchor::try_new_in` (anchor.rs lines 43-49): builds the anchor from
`domain.acquire()?`, so it returns `none` exactly when the domain's
`acquire` does, and otherwise the anchor holding the acquired slot and
the domain. -/
def anchor_try_new_in (dom : Nat) (acq : Option Nat) : Option (Nat × Nat) :=
  acq.map (fun i => (dom, i))

/-! ## Global domain (domain/global.rs) -/

/-- `SYNC_TIME_PERIOD` (global.rs line 25):
`Duration::from_nanos(2_000_000_000).as_nanos()`, i.e. two seconds in
nanoseconds. -/
def SYNC_TIME_PERIOD : Nat := 2000000000

/-- `RETIRED_COUNT_THRESHOLD` (global.rs line 26). -/
def RETIRED_COUNT_THRESHOLD : Int := 1000

/-- `HP_COUNT_MULTIPLIER` (global.rs line 27). -/
def HP_COUNT_MULTIPLIER : Int := 2

/-- `reached_threshold` (global.rs lines 31-33): the counts are `isize`,
embedded as `Int`. -/
def reached_threshold (retired_num hazptr_num : Int) : Bool :=
  decide (retired_num ≥ RETIRED_COUNT_THRESHOLD) &&
    decide (retired_num ≥ HP_COUNT_MULTIPLIER * hazptr_num)

/-- `GlobalDomainStatic::check_sync_time` (global.rs lines 88-110).
`now` is the system time in nanoseconds, `loaded` the relaxed load of
`sync_time`, and `current` the value `sync_time` holds when the CAS
executes (they differ only under a concurrent writer).  The `&&`
short-circuits, so the CAS is attempted only when `now > loaded`; the
CAS expects `loaded` and installs `now + SYNC_TIME_PERIOD`.  Returns the
boolean result and the value of `sync_time` afterwards. -/
def check_sync_time (now loaded current : Nat) : Bool × Nat :=
  if now > loaded then
    if current = loaded then (true, now + SYNC_TIME_PERIOD) else (false, current)
  else (false, current)

/-- Follows the words of claim C6, for comparison with `check_sync_time`:
"if now > last_sync_time, attempts a CAS of last_sync_time from now to
now + 2_000_000_000", i.e. the CAS's expected value is `now` itself. -/
def check_sync_time_as_claimed (now loaded current : Nat) : Bool × Nat :=
  if now > loaded then
    if current = now then (true, now + SYNC_TIME_PERIOD) else (false, current)
  else (false, current)

/-- What `relaxed_cleanup` (global.rs lines 112-115) does: a store-release
of `0` into the retired counter followed by `bulk_reclaim(true)`. -/
structure CleanupEffects where
  storedRetiredZeroRelease : Bool
  bulkReclaimTransitiveCalled : Bool
deriving DecidableEq, Repr

/-- `GlobalDomainStatic::relaxed_cleanup` (global.rs lines 112-115). -/
def relaxed_cleanup : CleanupEffects := ⟨true, true⟩

/-- Outcome of `try_timed_cleanup`: whether it cleaned, the value of
`sync_time` afterwards, and the effects performed. -/
structure TimedCleanupOutcome where
  cleaned : Bool
  syncTimeAfter : Nat
  effects : CleanupEffects
deriving DecidableEq, Repr

/-- `GlobalDomainStatic::try_timed_cleanup` (global.rs lines 80-86): runs
`relaxed_cleanup` exactly when `check_sync_time` returns true. -/
def try_timed_cleanup (now loaded current : Nat) : TimedCleanupOutcome :=
  let r := check_sync_time now loaded current
  if r.fst then ⟨true, r.snd, relaxed_cleanup⟩ else ⟨false, r.snd, ⟨false, false⟩⟩

/-- The branch taken by `check_cleanup_and_reclaim`. -/
inductive CleanupAction where
  | timedCleanup
  | tryBulkReclaim
  | nothing
deriving DecidableEq, Repr

/-- `GlobalDomainStatic::check_cleanup_and_reclaim` (global.rs lines
68-78): if `try_timed_cleanup` cleaned, return; else load the two counts
(acquire) and call `try_bulk_reclaim` when `reached_threshold` holds. -/
def check_cleanup_and_reclaim (now loaded current : Nat) (retired_num hazptr_num : Int) :
    CleanupAction :=
  if (try_timed_cleanup now loaded current).cleaned then .timedCleanup
  else if reached_threshold retired_num hazptr_num then .tryBulkReclaim
  else .nothing

/-- One iteration's worth of concurrent input to `bulk_reclaim`: what the
`retired.head` swap steals (the value addresses on the stolen nodes), the
snapshot of slot-published addresses, and whether `retired.head` reads
null at `bulk_lookup_and_reclaim`'s `done` check. -/
structure ReclaimRound where
  steal : List Ptr
  guarded : List Ptr
  headNullAtCheck : Bool
deriving DecidableEq, Repr

/-- The loop of `GlobalDomainStatic::bulk_reclaim` (global.rs lines
140-162), driven by a trace of rounds.  `nbulk` is the value of
`nbulk_reclaims` after the entry `fetch_add`.  When the stolen head is
null the code executes `return reclaimed` directly from inside the loop,
leaving `nbulk` as it stands; on the `break` path the trailing
`fetch_sub` runs.  Returns `(total reclaimed, nbulk_reclaims at return)`,
or `none` if the trace ran out. -/
def bulk_reclaim_loop (transitive : Bool) (acc : Nat) (nbulk : Int) :
    List ReclaimRound → Option (Nat × Int)
  | [] => none
  | r :: rest =>
    if r.steal.isEmpty then some (acc, nbulk)
    else
      let acc' := acc + (r.steal.filter (fun p => !(r.guarded.contains p))).length
      if r.headNullAtCheck || !transitive then some (acc', nbulk - 1)
      else bulk_reclaim_loop transitive acc' nbulk rest

/-- `GlobalDomainStatic::bulk_reclaim` (global.rs lines 136-165): the
entry `fetch_add(1)` on `nbulk_reclaims`, then the loop. -/
def bulk_reclaim (transitive : Bool) (rounds : List ReclaimRound) (nbulk : Int) :
    Option (Nat × Int) :=
  bulk_reclaim_loop transitive 0 (nbulk + 1) rounds

/-! ## anchor.rs: the reader protocol

The observable atomic operations of `moor` and `try_moor` are recorded as
an effect trace; a panicking `assert!` is modelled by `.panicked` carrying
the effects performed before the panic. -/

/-- One observable operation of the reader protocol. -/
inductive Effect where
  | loadBox (value : Ptr)
  | protectSlot (value : Ptr)
  | fenceLight
  | resetSlot
deriving DecidableEq, Repr

/-- Result of running a fragment of the reader protocol: either a normal
result or an `assert!` panic, carrying the effect trace performed before
the panic. -/
inductive PanicOr (α : Type) where
  | panicked (effects : List Effect)
  | ok (value : α)
deriving DecidableEq, Repr

/-- Outcome of one `try_moor`: the effects performed, the slot's
`protected` field afterwards, and `Sum.inl` the borrowed address on
success or `Sum.inr` the newly observed pointer on failure. -/
structure MoorOutcome where
  effects : List Effect
  slotProtected : Ptr
  result : Ptr ⊕ Ptr
deriving DecidableEq, Repr

/-- `Anchor::try_moor` (anchor.rs lines 81-107): first the
`assert!(self.domain == src.domain)`; then `protect(expected)`, the light
fence, the acquire re-load of the box pointer giving `actual`; `Ok(&*actual)`
when `expected == actual`, else `reset()` and `Err` carrying `actual`. -/
def tryMoorRun (anchorDom boxDom : Nat) (_slotProt expected actual : Ptr) :
    PanicOr MoorOutcome :=
  if anchorDom = boxDom then
    if expected = actual then
      .ok ⟨[.protectSlot expected, .fenceLight, .loadBox actual], expected, .inl actual⟩
    else
      .ok ⟨[.protectSlot expected, .fenceLight, .loadBox actual, .resetSlot], 0, .inr actual⟩
  else .panicked []

/-- Outcome of the `moor` loop: effects, the slot's `protected` field
afterwards, and `some` borrowed address on success (`none` when the trace
of observed box values ran out before two consecutive loads agreed). -/
structure MoorDone where
  effects : List Effect
  slotProtected : Ptr
  result : Option Ptr
deriving DecidableEq, Repr

/-- The `loop` of `Anchor::moor` (anchor.rs lines 70-78): call
`try_moor` with the current `expected`; on `Err` feed the returned
pointer back as the next `expected`.  `actuals` is the trace of values
the successive acquire loads of the box pointer observe. -/
def moorLoop (anchorDom boxDom : Nat) (slotProt expected : Ptr) :
    List Ptr → PanicOr MoorDone
  | [] => .ok ⟨[], slotProt, none⟩
  | actual :: rest =>
    match tryMoorRun anchorDom boxDom slotProt expected actual with
    | .panicked e => .panicked e
    | .ok o =>
      match o.result with
      | .inl p => .ok ⟨o.effects, o.slotProtected, some p⟩
      | .inr p =>
        match moorLoop anchorDom boxDom o.slotProtected p rest with
        | .panicked e => .panicked (o.effects ++ e)
        | .ok d => .ok ⟨o.effects ++ d.effects, d.slotProtected, d.result⟩

/-- `Anchor::moor` (anchor.rs lines 61-79): first the
`assert!(self.domain == src.domain)`, then the initial relaxed load of
the box pointer giving `v0`, then the loop. -/
def moorRun (anchorDom boxDom : Nat) (slotProt v0 : Ptr) (rest : List Ptr) :
    PanicOr MoorDone :=
  if anchorDom = boxDom then
    match moorLoop anchorDom boxDom slotProt v0 rest with
    | .panicked e => .panicked (.loadBox v0 :: e)
    | .ok d => .ok ⟨.loadBox v0 :: d.effects, d.slotProtected, d.result⟩
  else .panicked []

/-! ## Helper lemmas -/

/-- The `moor` loop never panics when the two domain handles are equal. -/
lemma moorLoop_eq_ok (d : Nat) :
    ∀ (actuals : List Ptr) (s e : Ptr), ∃ dd, moorLoop d d s e actuals = .ok dd := by
  intro actuals
  induction actuals with
  | nil => intro s e; exact ⟨_, rfl⟩
  | cons a rest ih =>
    intro s e
    by_cases h : e = a
    · exact ⟨⟨[.protectSlot e, .fenceLight, .loadBox a], e, some a⟩,
        by simp [moorLoop, tryMoorRun, h]⟩
    · obtain ⟨dd, hdd⟩ := ih 0 a
      exact ⟨⟨[.protectSlot e, .fenceLight, .loadBox a, .resetSlot] ++ dd.effects,
          dd.slotProtected, dd.result⟩,
        by simp [moorLoop, tryMoorRun, h, hdd]⟩

/-- A successful `moor` loop returns one of the observed box values. -/
lemma moorLoop_result_mem :
    ∀ (actuals : List Ptr) (s e : Ptr) (d : Nat) (dd : MoorDone) (p : Ptr),
      moorLoop d d s e actuals = .ok dd → dd.result = some p → p ∈ actuals := by
  intro actuals
  induction actuals with
  | nil =>
    intro s e d dd p hok hres
    simp [moorLoop] at hok
    rw [← hok] at hres
    simp at hres
  | cons a rest ih =>
    intro s e d dd p hok hres
    by_cases h : e = a
    · simp [moorLoop, tryMoorRun, h] at hok
      rw [← hok] at hres
      simp at hres
      simp [hres]
    · rcases hdd : moorLoop d d 0 a rest with e' | dd'
      · simp [moorLoop, tryMoorRun, h, hdd] at hok
      · simp [moorLoop, tryMoorRun, h, hdd] at hok
        rw [← hok] at hres
        simp at hres
        exact List.mem_cons_of_mem a (ih 0 a d dd' p hdd hres)

/-- After any sequence of swaps with non-null addresses, a box whose
pointer was non-null still stores a non-null pointer. -/
lemma swapAll_ptr_ne_zero :
    ∀ (ws : List Ptr) (b : HazBoxState), b.ptr ≠ 0 → (∀ w ∈ ws, w ≠ 0) →
      (HazBox.swapAll b ws).ptr ≠ 0 := by
  intro ws
  induction ws with
  | nil => intro b hb _; exact hb
  | cons w ws ih =>
    intro b _ hw
    exact ih ⟨w, b.domainId⟩ (hw w (by simp)) (fun x hx => hw x (by simp [hx]))

/-- Every old pointer handed to `Retire::new_in` by a sequence of swaps
on such a box is non-null. -/
lemma swapRetired_ne_zero :
    ∀ (ws : List Ptr) (b : HazBoxState), b.ptr ≠ 0 → (∀ w ∈ ws, w ≠ 0) →
      ∀ q ∈ HazBox.swapRetired b ws, q ≠ 0 := by
  intro ws
  induction ws with
  | nil => intro b _ _ q hq; simp [HazBox.swapRetired] at hq
  | cons w ws ih =>
    intro b hb hw q hq
    simp [HazBox.swapRetired, HazBox.swap] at hq
    rcases hq with hq | hq
    · rw [hq]; exact hb
    · exact ih ⟨w, b.domainId⟩ (hw w (by simp)) (fun x hx => hw x (by simp [hx])) q hq

/-! ## Claims -/

/-- C1: the claim says that between construction and destruction the
hazard-box's pointer always addresses a value allocated by its domain's
allocator.  The constructor does allocate in the domain's allocator, but
`HazBox::swap` installs the address of the caller-provided `&mut T`
unchanged: after a swap with an address the allocator never produced
(here `42`, while the allocator's only live allocation is `1`), the
installed pointer is not allocator-allocated. -/
theorem hazbox_swap_escapes_allocator :
    (HazBox.try_new_in 0 ⟨1, []⟩).snd.ptr ∈ (HazBox.try_new_in 0 ⟨1, []⟩).fst.live
    ∧ (HazBox.swap (HazBox.try_new_in 0 ⟨1, []⟩).snd 42).fst.ptr = 42
    ∧ 42 ∉ (HazBox.try_new_in 0 ⟨1, []⟩).fst.live := by
  decide

/-- C2 counterexample: dropping a retirement handle for a value type with
no destructor (`needs_drop` false) neither retires the value to the
domain nor performs any deallocation — the body of `Retire::drop` is
empty on that path, so the storage is simply leaked. -/
theorem retire_drop_no_dealloc_counterexample :
    (retire_handle_drop false 7 ⟨[], []⟩ 3).snd = []
    ∧ (retire_handle_drop false 7 ⟨[], []⟩ 3).fst = (⟨[], []⟩ : ScopedState)
    ∧ 7 ∉ retiredValues (retire_handle_drop false 7 ⟨[], []⟩ 3).fst := by
  decide

/-- C2 as amended: dropping the handle invokes `domain.retire(ptr)`,
handing the old value to the domain's retired list, exactly when the
value type has a non-trivial destructor; otherwise it does nothing (the
domain is untouched), and in no case does the handle deallocate the
storage itself. -/
theorem retire_drop_retires_iff_needs_drop :
    ∀ (nd : Bool) (p : Ptr) (st : ScopedState) (na : Ptr),
      (retire_handle_drop nd p st na).snd = []
      ∧ (nd = true →
          retiredValues (retire_handle_drop nd p st na).fst = p :: retiredValues st)
      ∧ (nd = false → (retire_handle_drop nd p st na).fst = st) := by
  intro nd p st na
  cases nd <;> simp [retire_handle_drop, scoped_retire, retiredValues]

/-- C2 witness: a handle whose value needs dropping pushes the value onto
the domain's retired list. -/
theorem retire_drop_retires_iff_needs_drop_witness :
    retiredValues (retire_handle_drop true 7 ⟨[], []⟩ 3).fst
      = 7 :: retiredValues (⟨[], []⟩ : ScopedState) :=
  (retire_drop_retires_iff_needs_drop true 7 ⟨[], []⟩ 3).2.1 rfl

/-- C3: the slot nodes and retired-list nodes are allocated by
`List::push_front` with the `Global` allocator, yet `ScopedDomain::drop`
deallocates them with the domain's user-supplied allocator — the
allocation is not symmetric (for the retired value itself it is). -/
theorem scoped_nodes_alloc_dealloc_mismatch :
    (scoped_acquire_new ⟨[], []⟩ 10).snd = ⟨10, .globalAlloc⟩
    ∧ scoped_drop_events (scoped_acquire_new ⟨[], []⟩ 10).fst = [⟨10, .userAlloc⟩]
    ∧ (scoped_retire ⟨[], []⟩ 20 21).snd = ⟨20, .globalAlloc⟩
    ∧ scoped_drop_events (scoped_retire ⟨[], []⟩ 20 21).fst
        = [⟨21, .userAlloc⟩, ⟨20, .userAlloc⟩]
    ∧ AllocId.globalAlloc ≠ AllocId.userAlloc := by
  decide

/-- C5: `bulk_reclaim` increments `nbulk_reclaims` on entry, but the
`return reclaimed` taken when the stolen head is null leaves the counter
incremented — starting from `0`, a call on an empty retired list returns
with the counter at `1` instead of `0`.  On the `break` path the counter
is restored to `0` as the claim describes. -/
theorem bulk_reclaim_counter_not_restored :
    bulk_reclaim true [⟨[], [], true⟩] 0 = some (0, 1)
    ∧ bulk_reclaim false [⟨[4], [], true⟩] 0 = some (1, 0) := by
  decide

/-- C6 counterexample: with system time `5` ns and `sync_time` holding
`0`, the code's CAS expects the loaded value `0` and succeeds, firing the
unconditional cleanup, while the claim's CAS "from now" would expect `5`,
fail, and fire nothing. -/
theorem check_sync_time_cas_expected_counterexample :
    check_sync_time 5 0 0 = (true, 2000000005)
    ∧ check_sync_time_as_claimed 5 0 0 = (false, 0)
    ∧ try_timed_cleanup 5 0 0 = ⟨true, 2000000005, relaxed_cleanup⟩ := by
  decide

/-- C6 as amended: the timed path fires exactly when `now` exceeds the
loaded `last_sync_time` and the CAS — whose expected value is that loaded
value, not `now` — succeeds; on success `last_sync_time` becomes
`now + 2_000_000_000`, and zero is stored (release) into the retired
counter followed by `bulk_reclaim(transitive = true)` exactly when the
CAS succeeded. -/
theorem timed_cleanup_cas_from_loaded :
    ∀ now loaded current : Nat,
      ((check_sync_time now loaded current).fst = true ↔ (loaded < now ∧ current = loaded))
      ∧ ((check_sync_time now loaded current).fst = true →
          (check_sync_time now loaded current).snd = now + 2000000000)
      ∧ (try_timed_cleanup now loaded current).effects.storedRetiredZeroRelease
          = (check_sync_time now loaded current).fst
      ∧ (try_timed_cleanup now loaded current).effects.bulkReclaimTransitiveCalled
          = (check_sync_time now loaded current).fst := by
  intro now loaded current
  by_cases h1 : loaded < now <;> by_cases h2 : current = loaded <;>
    simp [check_sync_time, try_timed_cleanup, relaxed_cleanup, SYNC_TIME_PERIOD, h1, h2]

/-- C6 witness: at `now = 5`, `sync_time = 0` the CAS succeeds and
installs `5 + 2_000_000_000`. -/
theorem timed_cleanup_cas_from_loaded_witness :
    (check_sync_time 5 0 0).snd = 5 + 2000000000 :=
  (timed_cleanup_cas_from_loaded 5 0 0).2.1 (by decide)

/-- C7: `reached_threshold` holds exactly when the retired count is at
least 1000 and at least twice the slot count; `1000` retired against
`500` slots reaches it and makes `check_cleanup_and_reclaim` attempt
`try_bulk_reclaim` (when the timed path did not fire), while `999`
against `1` slot does not. -/
theorem threshold_exact_bounds :
    (∀ r h : Int, reached_threshold r h = true ↔ (1000 ≤ r ∧ 2 * h ≤ r))
    ∧ reached_threshold 1000 500 = true
    ∧ reached_threshold 999 1 = false
    ∧ (∀ (now loaded current : Nat) (r h : Int),
        (try_timed_cleanup now loaded current).cleaned = false →
          (check_cleanup_and_reclaim now loaded current r h = .tryBulkReclaim
            ↔ reached_threshold r h = true))
    ∧ check_cleanup_and_reclaim 0 0 0 1000 500 = .tryBulkReclaim
    ∧ check_cleanup_and_reclaim 0 0 0 999 1 = .nothing := by
  refine ⟨?_, by decide, by decide, ?_, by decide, by decide⟩
  · intro r h
    simp [reached_threshold, RETIRED_COUNT_THRESHOLD, HP_COUNT_MULTIPLIER, ge_iff_le]
  · intro now loaded current r h hc
    by_cases ht : reached_threshold r h <;>
      simp [check_cleanup_and_reclaim, hc, ht]

/-- C7 witness: with the timed path not firing, the threshold instance
`1000` retired / `500` slots triggers the reclamation attempt. -/
theorem threshold_exact_bounds_witness :
    check_cleanup_and_reclaim 0 0 0 1000 500 = .tryBulkReclaim :=
  (threshold_exact_bounds.2.2.2.1 0 0 0 1000 500 (by decide)).mpr (by decide)

/-- C4: in the same domain, `try_moor` stores `expected` into the slot,
runs the light fence, re-loads the box pointer (acquire) as `actual`, and
succeeds with a borrow of `actual` exactly when `expected = actual`,
leaving the slot guarding that address; otherwise it resets the slot to
null and returns `Err` carrying `actual`.  `moor` starts with a relaxed
load of the box pointer and iterates `try_moor`, feeding each `Err`'s
pointer back in as the next `expected` until a `try_moor` succeeds. -/
theorem anchor_moor_protocol :
    (∀ d s e a : Nat, e = a →
        tryMoorRun d d s e a
          = .ok ⟨[.protectSlot e, .fenceLight, .loadBox a], e, .inl a⟩)
    ∧ (∀ d s e a : Nat, e ≠ a →
        tryMoorRun d d s e a
          = .ok ⟨[.protectSlot e, .fenceLight, .loadBox a, .resetSlot], 0, .inr a⟩)
    ∧ (∀ (d s e a : Nat) (o : MoorOutcome), tryMoorRun d d s e a = .ok o →
        ((∃ p, o.result = .inl p) ↔ e = a))
    ∧ (∀ (d s e a : Nat) (rest : List Nat), e = a →
        moorLoop d d s e (a :: rest)
          = .ok ⟨[.protectSlot e, .fenceLight, .loadBox a], e, some a⟩)
    ∧ (∀ (d s e a : Nat) (rest : List Nat) (dd : MoorDone), e ≠ a →
        moorLoop d d 0 a rest = .ok dd →
        moorLoop d d s e (a :: rest)
          = .ok ⟨[.protectSlot e, .fenceLight, .loadBox a, .resetSlot] ++ dd.effects,
              dd.slotProtected, dd.result⟩)
    ∧ (∀ (d s v0 : Nat) (rest : List Nat), ∃ dd : MoorDone,
        moorRun d d s v0 rest = .ok dd ∧ dd.effects.head? = some (.loadBox v0)) := by
  refine ⟨?_, ?_, ?_, ?_, ?_, ?_⟩
  · intro d s e a h; simp [tryMoorRun, h]
  · intro d s e a h; simp [tryMoorRun, h]
  · intro d s e a o ho
    by_cases h : e = a
    · simp [tryMoorRun, h] at ho
      simp [← ho, h]
    · simp [tryMoorRun, h] at ho
      simp [← ho, h]
  · intro d s e a rest h; simp [moorLoop, tryMoorRun, h]
  · intro d s e a rest dd h hdd; simp [moorLoop, tryMoorRun, h, hdd]
  · intro d s v0 rest
    obtain ⟨dd, hdd⟩ := moorLoop_eq_ok d rest s v0
    exact ⟨⟨.loadBox v0 :: dd.effects, dd.slotProtected, dd.result⟩,
      by simp [moorRun, hdd], by simp⟩

/-- C4 witness: a matching verify succeeds guarding the address, a
mismatching one resets the slot and hands back the newly observed
pointer. -/
theorem anchor_moor_protocol_witness :
    tryMoorRun 0 0 9 4 4 = .ok ⟨[.protectSlot 4, .fenceLight, .loadBox 4], 4, .inl 4⟩
    ∧ tryMoorRun 0 0 9 4 6
        = .ok ⟨[.protectSlot 4, .fenceLight, .loadBox 6, .resetSlot], 0, .inr 6⟩ :=
  ⟨anchor_moor_protocol.1 0 9 4 4 rfl, anchor_moor_protocol.2.1 0 9 4 6 (by decide)⟩

/-- C8 counterexample: with every slot active (no free slot), the scoped
domain's `acquire` does not return `None` — it unconditionally pushes a
brand-new active slot and returns it, and the fallible anchor constructor
therefore succeeds instead of reporting exhaustion. -/
theorem scoped_acquire_all_active_counterexample :
    scoped_acquire [true, true] = ([true, true, true], some 0)
    ∧ (scoped_acquire [true, true]).snd ≠ none
    ∧ anchor_try_new_in 1 (scoped_acquire [true, true]).snd = some (1, 0) := by
  decide

/-- C8 as amended: the scoped domain's `acquire` never reports
exhaustion: when no inactive slot exists it pushes a new active slot
(aborting on allocation failure rather than returning `None`), so it
always returns `some`; `Anchor::try_new_in` fails exactly when the
domain's `acquire` returns `None` — hence never for this scoped
implementation. -/
theorem scoped_acquire_never_none :
    ∀ slots : List Bool,
      (scoped_acquire slots).snd ≠ none
      ∧ (slots.findIdx? (fun a => !a) = none →
          scoped_acquire slots = (true :: slots, some 0))
      ∧ (∀ dom : Nat, anchor_try_new_in dom (scoped_acquire slots).snd ≠ none)
      ∧ (∀ dom : Nat, anchor_try_new_in dom none = none) := by
  intro slots
  rcases h : slots.findIdx? (fun a => !a) with _ | i <;>
    simp [scoped_acquire, try_acquire_existing, anchor_try_new_in, h]

/-- C8 witness: a pool whose single slot is active grows by a new active
slot instead of reporting exhaustion. -/
theorem scoped_acquire_never_none_witness :
    scoped_acquire [true] = ([true, true], some 0) :=
  (scoped_acquire_never_none [true]).2.1 (by decide)

/-- C9: when the anchor's and the hazard-box's domain handles compare
unequal, both `moor` and `try_moor` hit the leading `assert!` and abort
having performed no effect at all: no load of the box pointer and no
store into the slot precede the abort (the panic trace is empty). -/
theorem moor_domain_mismatch_aborts :
    ∀ aDom bDom : Nat, aDom ≠ bDom →
      ∀ (s e a v0 : Nat) (rest : List Nat),
        tryMoorRun aDom bDom s e a = .panicked []
        ∧ moorRun aDom bDom s v0 rest = .panicked [] := by
  intro aD bD h s e a v0 rest
  constructor <;> simp [tryMoorRun, moorRun, h]

/-- C9 witness: with domain handles 0 and 1, both operations abort with
an empty effect trace. -/
theorem moor_domain_mismatch_aborts_witness :
    tryMoorRun 0 1 0 2 3 = .panicked [] ∧ moorRun 0 1 0 2 [] = .panicked [] :=
  moor_domain_mismatch_aborts 0 1 (by decide) 0 2 3 2 []

/-- C10: a hazard-box's pointer is never null: the constructor installs
the non-null result of a successful allocation (the allocator model only
hands out non-null addresses), and each swap installs the address of a
caller-provided mutable reference, which is non-null; hence the old
pointer wrapped by each retirement handle (`NonNull::new_unchecked` in
`Retire::new_in`) is non-null, and a successful `moor` — whose result is
one of the observed box-pointer values — never returns a borrow derived
from a null pointer. -/
theorem hazbox_pointer_nonnull :
    (∀ (dom : Nat) (a : AllocatorState), a.next ≠ 0 →
        (HazBox.try_new_in dom a).snd.ptr ≠ 0)
    ∧ (∀ (b : HazBoxState) (ws : List Ptr), b.ptr ≠ 0 → (∀ w ∈ ws, w ≠ 0) →
        (HazBox.swapAll b ws).ptr ≠ 0 ∧ ∀ q ∈ HazBox.swapRetired b ws, q ≠ 0)
    ∧ (∀ (d s v0 : Nat) (rest : List Nat) (dd : MoorDone) (p : Ptr),
        (∀ x ∈ rest, x ≠ 0) → moorRun d d s v0 rest = .ok dd →
          dd.result = some p → p ≠ 0) := by
  refine ⟨?_, ?_, ?_⟩
  · intro dom a ha
    simpa [HazBox.try_new_in, AllocatorState.allocate] using ha
  · intro b ws hb hw
    exact ⟨swapAll_ptr_ne_zero ws b hb hw, swapRetired_ne_zero ws b hb hw⟩
  · intro d s v0 rest dd p hrest hok hres
    rcases hml : moorLoop d d s v0 rest with e' | dd'
    · simp [moorRun, hml] at hok
    · simp [moorRun, hml] at hok
      rw [← hok] at hres
      simp at hres
      exact hrest p (moorLoop_result_mem rest s v0 d dd' p hml hres)

/-- C10 witness: a freshly constructed box stores a non-null pointer and
keeps doing so across swaps with (non-null) reference addresses. -/
theorem hazbox_pointer_nonnull_witness :
    (HazBox.try_new_in 0 ⟨1, []⟩).snd.ptr ≠ 0
    ∧ (HazBox.swapAll ⟨1, 0⟩ [5, 7]).ptr ≠ 0 :=
  ⟨hazbox_pointer_nonnull.1 0 ⟨1, []⟩ (by decide),
    (hazbox_pointer_nonnull.2.1 ⟨1, 0⟩ [5, 7] (by decide) (by decide)).1⟩

end Anchorage
